import Mathlib

/-!
Verification of the AI Engine Process Supervisor
(`src-tauri/src/ai_engine/{manager,communication,health,config}.rs`).

The Rust modules are shallowly embedded: pure logic becomes Lean functions,
stateful loops become explicit step functions over state types, and the
environment (filesystem, child process, timing of replies) is passed in as
explicit oracle arguments.  Machine integers (`u32`, `u64`) are embedded as
`Nat`, with an explicit `% 2 ^ 64` at the one place (`2_u64.pow` and the
backoff multiplication) where release-mode wrapping could matter.
-/

namespace AIEngine

/-- Embedding of Rust `std::time::Duration`: whole seconds plus a nanosecond
remainder (`nanos < 10 ^ 9` in Rust); `as_secs` returns the seconds field,
truncating the nanoseconds. -/
structure Duration where
  secs : Nat
  nanos : Nat
deriving DecidableEq, Repr

def Duration.asSecs (d : Duration) : Nat := d.secs

def Duration.fromSecs (n : Nat) : Duration := ⟨n, 0⟩

/-- Modelled from the spec: the `AIEngineStatus` enum used by `manager.rs`
and `tests.rs` is not present under `src/` (the `types.rs` there is a stale
variant without `Restarting`).  Spec §3 lists the variants
`Stopped, Starting, Ready, Restarting, HealthCheckFailed, ProcessCrashed,
Error(reason)`. -/
inductive AIEngineStatus where
  | Stopped
  | Starting
  | Ready
  | Restarting
  | HealthCheckFailed
  | ProcessCrashed
  | Error (reason : String)
deriving DecidableEq, Repr

/-- Modelled from the spec: the `AIEngineError` enum is not present under
`src/`; its variants are those constructed in `manager.rs`,
`communication.rs`, `health.rs` and enumerated in `tests.rs` and spec §7. -/
inductive AIEngineError where
  | ProcessSpawnError (msg : String)
  | ProcessCrashed (msg : String)
  | CommunicationError (msg : String)
  | TimeoutError (msg : String)
  | ConfigurationError (msg : String)
  | JsonRpcError (msg : String)
  | HealthCheckFailedError (msg : String)
  | StartupFailed (msg : String)
deriving DecidableEq, Repr

/-- Modelled from the spec: `AIStatusUpdate::new(status, message)` as used by
`manager.rs` (the timestamp field is irrelevant to the claims and omitted). -/
structure AIStatusUpdate where
  status : AIEngineStatus
  message : Option String
deriving DecidableEq, Repr

/-- Modelled from the spec: `HealthCheckResult` (spec §3) with the
`healthy`/`unhealthy` constructors exercised by `tests.rs`
(`healthy(rt)` sets `healthy = true`, the measured round-trip time and no
error; `unhealthy(e)` sets `healthy = false`, `response_time_ms = 0` and
the error string); the struct itself is not under `src/`.  The timestamp
field is irrelevant to the claims and omitted. -/
structure HealthCheckResult where
  healthy : Bool
  response_time_ms : Nat
  error : Option String
deriving DecidableEq, Repr

def HealthCheckResult.mkHealthy (rt : Nat) : HealthCheckResult :=
  { healthy := true, response_time_ms := rt, error := none }

def HealthCheckResult.mkUnhealthy (e : String) : HealthCheckResult :=
  { healthy := false, response_time_ms := 0, error := some e }

/-- Whether `pat` is an initial segment of `l`. -/
def matchesAt : List Char → List Char → Bool
  | [], _ => true
  | _ :: _, [] => false
  | p :: ps, c :: cs => p == c && matchesAt ps cs

/-- Whether `pat` occurs contiguously somewhere in `l`. -/
def occursIn (pat : List Char) : List Char → Bool
  | [] => pat.isEmpty
  | c :: cs => matchesAt pat (c :: cs) || occursIn pat cs

/-- Substring test, embedding Rust `str::contains(pattern)` for a string
pattern. -/
def containsSubstr (s pat : String) : Bool := occursIn pat.data s.data

/-- Embedding of `AIEngineConfig` from `config.rs` (paths are carried as
strings; `debug_logging` and `log_file_path` play no role in any claim but
are kept for completeness). -/
structure AIEngineConfig where
  python_executable : String
  ai_core_script : String
  working_directory : String
  environment_variables : List (String × String)
  startup_timeout : Duration
  health_check_interval : Duration
  health_check_timeout : Duration
  max_restart_attempts : Nat
  restart_delay_base : Duration
  max_restart_delay : Duration
  debug_logging : Bool
  log_file_path : Option String
deriving DecidableEq, Repr

/-- Embedding of the environment-variable loop at the end of
`AIEngineConfig::validate` (config.rs lines 188-195): each entry is checked
for null bytes first, then for oversized key/value (Rust `str::len` is the
UTF-8 byte length, hence `utf8ByteSize`). -/
def checkEnvVars : List (String × String) → Except String Unit
  | [] => .ok ()
  | (k, v) :: rest =>
    if k.contains (Char.ofNat 0) || v.contains (Char.ofNat 0) then
      .error "Environment variables cannot contain null bytes"
    else if k.utf8ByteSize > 1000 || v.utf8ByteSize > 10000 then
      .error "Environment variable key or value too long"
    else checkEnvVars rest

/-- Embedding of `AIEngineConfig::validate` (config.rs lines 129-198).
Filesystem existence (`Path::exists`) is an oracle `pathExists`. -/
def AIEngineConfig.validate (c : AIEngineConfig) (pathExists : String → Bool) :
    Except String Unit :=
  if containsSubstr c.python_executable ".." || containsSubstr c.python_executable "~" then
    .error "Python executable path contains potentially unsafe characters"
  else if !pathExists c.python_executable && c.python_executable != "python"
      && c.python_executable != "python3" then
    .error ("Python executable not found: " ++ c.python_executable)
  else if containsSubstr c.ai_core_script ".." then
    .error "AI Core script path contains potentially unsafe characters"
  else if !pathExists c.ai_core_script then
    .error ("AI Core script not found: " ++ c.ai_core_script)
  else if containsSubstr c.working_directory ".." then
    .error "Working directory path contains potentially unsafe characters"
  else if !pathExists c.working_directory then
    .error ("Working directory not found: " ++ c.working_directory)
  else if c.startup_timeout.asSecs == 0 then
    .error "Startup timeout must be greater than 0"
  else if c.startup_timeout.asSecs > 300 then
    .error "Startup timeout too large (max 300 seconds)"
  else if c.health_check_interval.asSecs == 0 then
    .error "Health check interval must be greater than 0"
  else if c.health_check_timeout.asSecs == 0 then
    .error "Health check timeout must be greater than 0"
  else if c.max_restart_attempts > 10 then
    .error "Maximum restart attempts too high (max 10)"
  else
    checkEnvVars c.environment_variables

/-- Outcome of the spawn-and-ready-wait phase of `start()` that depends on
the external child process, abstracted as an oracle value: `success` means
`spawn_ai_process` returned `Ok(())`; the error constructors are the three
error sources inside it (`Command::spawn` failure, `start_with_process`
failure, `wait_for_ready` timeout). -/
inductive SpawnOutcome where
  | success
  | spawnFail (msg : String)
  | commFail (msg : String)
  | readyTimeout
deriving DecidableEq, Repr

/-- Embedding of `AIEngineManager::spawn_ai_process` (manager.rs lines
172-224).  Returns the result together with a flag recording whether
`Command::spawn` was actually reached (the two path pre-checks return before
any process is created).  `wait_for_ready`'s only externally visible result
is success or `StartupFailed`, folded into the oracle. -/
def spawnAIProcess (c : AIEngineConfig) (pathExists : String → Bool)
    (o : SpawnOutcome) : Except AIEngineError Unit × Bool :=
  if !pathExists c.python_executable && c.python_executable != "python"
      && c.python_executable != "python3" then
    (.error (.ProcessSpawnError "Python executable not found or not allowed"), false)
  else if !pathExists c.ai_core_script then
    (.error (.ProcessSpawnError "AI Core script not found"), false)
  else
    match o with
    | .spawnFail m => (.error (.ProcessSpawnError ("Failed to spawn process: " ++ m)), true)
    | .commFail m => (.error (.CommunicationError m), true)
    | .readyTimeout =>
      (.error (.StartupFailed "Timeout waiting for AI Core to be ready"), true)
    | .success => (.ok (), true)

/-- Display of an `AIEngineError` as used by `start()` for the `Error`
status message (`e.to_string()`); the exact rendering is irrelevant to every
claim, only that it is a function of the error. -/
def AIEngineError.display : AIEngineError → String
  | .ProcessSpawnError m => "Process spawn error: " ++ m
  | .ProcessCrashed m => "Process crashed: " ++ m
  | .CommunicationError m => "Communication error: " ++ m
  | .TimeoutError m => "Timeout error: " ++ m
  | .ConfigurationError m => "Configuration error: " ++ m
  | .JsonRpcError m => "JSON-RPC error: " ++ m
  | .HealthCheckFailedError m => "Health check failed: " ++ m
  | .StartupFailed m => "Startup failed: " ++ m

/-- Result of one `start()` call: the returned value, whether a process
spawn was attempted, and the emitted status updates in order. -/
structure StartResult where
  result : Except AIEngineError Unit
  spawned : Bool
  events : List AIStatusUpdate
deriving Repr

/-- Embedding of `AIEngineManager::start` (manager.rs lines 63-99): validate
the configuration (`ConfigurationError` on failure, before any status change
or spawn), emit `Starting`, reset the restart counter and shutdown flag,
then run the spawn sequence; on success emit `Ready`, on failure emit
`Error` with the error's display. -/
def AIEngineManager.start (c : AIEngineConfig) (pathExists : String → Bool)
    (o : SpawnOutcome) : StartResult :=
  match c.validate pathExists with
  | .error e => { result := .error (.ConfigurationError e), spawned := false, events := [] }
  | .ok () =>
    match spawnAIProcess c pathExists o with
    | (.ok (), sp) =>
      { result := .ok (), spawned := sp,
        events := [⟨.Starting, none⟩, ⟨.Ready, none⟩] }
    | (.error e, sp) =>
      { result := .error e, spawned := sp,
        events := [⟨.Starting, none⟩, ⟨.Error e.display, none⟩] }

/-- Backoff delay in seconds computed by the restart loop for the `k`-th
restart attempt (manager.rs lines 344-347):
`min(restart_delay_base.as_secs() * 2_u64.pow(k - 1), max_restart_delay.as_secs())`,
with the `u64` power and product embedded as `Nat` arithmetic modulo
`2 ^ 64` (release-mode wrapping). -/
def backoffDelay (c : AIEngineConfig) (k : Nat) : Nat :=
  min (c.restart_delay_base.asSecs * (2 ^ (k - 1) % 2 ^ 64) % 2 ^ 64)
    (c.max_restart_delay.asSecs)

/-- One observation made by the restart-supervision loop on a tick: the
shutdown flag and `is_process_running()`. -/
structure RestartObs where
  shutdownRequested : Bool
  processRunning : Bool
deriving DecidableEq, Repr

/-- Observable action of the restart loop during one tick, in order:
status updates sent on `status_sender` and the backoff sleep (in seconds).
The loop body of `start_restart_monitoring` contains no respawn action: the
respawn site is the `TODO` comment at manager.rs lines 351-352, so no
embedded tick ever emits `respawn`; the constructor exists so that the
spec's claimed behaviour is expressible. -/
inductive RestartEvent where
  | statusUpdate (u : AIStatusUpdate)
  | backoffSleep (delaySecs : Nat)
  | respawn
deriving DecidableEq, Repr

/-- Result of one tick of the restart loop: either continue with a new
counter value, or break out of the loop; in both cases with the emitted
events. -/
inductive RestartTick where
  | cont (attempts : Nat) (events : List RestartEvent)
  | halt (events : List RestartEvent)
deriving DecidableEq, Repr

/-- Embedding of one iteration of the restart-supervision loop body
(manager.rs lines 315-363), after the 1-second tick sleep: break if
shutdown was requested; do nothing if the process is running; otherwise
increment the restart counter; if the new count is within
`max_restart_attempts`, send `Restarting` with the attempt number and sleep
the backoff delay (the respawn itself is absent from the source — `TODO`);
if the count exceeds the cap, send terminal `Error` and break. -/
def restartTick (c : AIEngineConfig) (attempts : Nat) (obs : RestartObs) :
    RestartTick :=
  if obs.shutdownRequested then
    .halt []
  else if obs.processRunning then
    .cont attempts []
  else
    let current := attempts + 1
    if current ≤ c.max_restart_attempts then
      .cont current
        [.statusUpdate ⟨.Restarting,
          some ("Restarting after crash (" ++ toString current ++ "/"
            ++ toString c.max_restart_attempts ++ ")")⟩,
         .backoffSleep (backoffDelay c current)]
    else
      .halt [.statusUpdate ⟨.Error "Max restart attempts exceeded", none⟩]

/-- Run of the restart-supervision loop over a finite list of tick
observations, starting from a given counter value: folds `restartTick`,
stopping early when a tick breaks; returns the final counter, whether the
loop has exited, and all emitted events in order. -/
def restartRun (c : AIEngineConfig) (attempts : Nat) :
    List RestartObs → Nat × Bool × List RestartEvent
  | [] => (attempts, false, [])
  | obs :: rest =>
    match restartTick c attempts obs with
    | .halt evs => (attempts, true, evs)
    | .cont attempts' evs =>
      let (a, stopped, evs') := restartRun c attempts' rest
      (a, stopped, evs ++ evs')

/-- JSON value model (`serde_json::Value`). -/
inductive Json where
  | null
  | bool (b : Bool)
  | num (n : Int)
  | str (s : String)
  | arr (elems : List Json)
  | obj (fields : List (String × Json))
deriving Repr

/-- First field with the given key in a JSON object's field list
(serde object-field lookup). -/
def lookupField : List (String × Json) → String → Option Json
  | [], _ => none
  | (k, v) :: rest, key => if k == key then some v else lookupField rest key

/-- Modelled from the spec: the JSON-RPC error object carried in a
response's `error` field; the enclosing struct definition is not under
`src/`, and `manager.rs` reads its `message` field. -/
structure JsonRpcErrorObj where
  message : String
deriving DecidableEq, Repr

/-- Modelled from the spec: `JsonRpcMessage` (spec §3
`\x7bversion, method, params?, id?\x7d`); the struct compiled against
`communication.rs` is not under `src/`.  `new_request`/`new_notification`
below follow `tests.rs`. -/
structure JsonRpcMessage where
  jsonrpc : String
  method : String
  params : Option Json
  id : Option Json
deriving Repr

/-- Constructor used by `IPCChannel::send_request`: `jsonrpc` is "2.0". -/
def JsonRpcMessage.new_request (method : String) (params : Option Json)
    (id : Option Json) : JsonRpcMessage :=
  { jsonrpc := "2.0", method := method, params := params, id := id }

/-- Constructor used by `IPCChannel::send_notification`: no id. -/
def JsonRpcMessage.new_notification (method : String) (params : Option Json) :
    JsonRpcMessage :=
  { jsonrpc := "2.0", method := method, params := params, id := none }

/-- Modelled from the spec: `JsonRpcResponse` (spec §3
`\x7bversion, result?, error?, id\x7d`); the struct compiled against
`communication.rs` is not under `src/`. -/
structure JsonRpcResponse where
  jsonrpc : String
  result : Option Json
  error : Option JsonRpcErrorObj
  id : Json
deriving Repr

/-- Modelled from the spec: serde serialization of a `JsonRpcMessage` to a
JSON object (optional fields omitted when absent); the wire codec's text
layer (`serde_json::to_string` / `from_str`) is treated as a bijection
between JSON values and their rendered lines, so encoding and decoding are
stated on JSON values. -/
def encodeMessage (m : JsonRpcMessage) : Json :=
  .obj ([("jsonrpc", .str m.jsonrpc), ("method", .str m.method)]
    ++ (match m.params with | some p => [("params", p)] | none => [])
    ++ (match m.id with | some i => [("id", i)] | none => []))

/-- Modelled from the spec: serde serialization of a `JsonRpcResponse`. -/
def encodeResponse (r : JsonRpcResponse) : Json :=
  .obj ([("jsonrpc", .str r.jsonrpc)]
    ++ (match r.result with | some v => [("result", v)] | none => [])
    ++ (match r.error with
        | some e => [("error", .obj [("message", .str e.message)])]
        | none => [])
    ++ [("id", r.id)])

/-- Decoding of a JSON value as a JSON-RPC error object. -/
def decodeErrorObj : Json → Option JsonRpcErrorObj
  | .obj fields =>
    match lookupField fields "message" with
    | some (.str s) => some ⟨s⟩
    | _ => none
  | _ => none

/-- Modelled from the spec: parsing a JSON value as a `JsonRpcResponse`
(spec §4.1: a line is a response "if it parses with a non-null `id` and no
`method`"). -/
def decodeResponse (j : Json) : Option JsonRpcResponse :=
  match j with
  | .obj fields =>
    match lookupField fields "method" with
    | some _ => none
    | none =>
      match lookupField fields "jsonrpc", lookupField fields "id" with
      | some (.str v), some idv =>
        match idv with
        | .null => none
        | _ =>
          match lookupField fields "error" with
          | none =>
            some { jsonrpc := v, result := lookupField fields "result",
                   error := none, id := idv }
          | some e =>
            match decodeErrorObj e with
            | some eo =>
              some { jsonrpc := v, result := lookupField fields "result",
                     error := some eo, id := idv }
            | none => none
      | _, _ => none
  | _ => none

/-- Modelled from the spec: parsing a JSON value as a `JsonRpcMessage`
(request or notification). -/
def decodeMessage (j : Json) : Option JsonRpcMessage :=
  match j with
  | .obj fields =>
    match lookupField fields "jsonrpc", lookupField fields "method" with
    | some (.str v), some (.str m) =>
      some { jsonrpc := v, method := m, params := lookupField fields "params",
             id := lookupField fields "id" }
    | _, _ => none
  | _ => none

/-- Result of the reader's classification of one incoming line
(communication.rs lines 100-129): try `JsonRpcResponse` first, then
`JsonRpcMessage`; on both failing the line is discarded with a warning. -/
inductive DecodedLine where
  | resp (r : JsonRpcResponse)
  | msg (m : JsonRpcMessage)
  | discarded
deriving Repr

/-- Classification of one trimmed incoming line as done by
`start_stdout_reader`: response first, then message, else discarded. -/
def decodeLine (j : Json) : DecodedLine :=
  match decodeResponse j with
  | some r => .resp r
  | none =>
    match decodeMessage j with
    | some m => .msg m
    | none => .discarded

def RestartEvent.isRestarting : RestartEvent → Bool
  | .statusUpdate ⟨.Restarting, _⟩ => true
  | _ => false

/-- Number of `Restarting` status updates in a list of restart-loop
events. -/
def countRestarting (evs : List RestartEvent) : Nat :=
  evs.countP RestartEvent.isRestarting

/-- The `PendingRequestTable`: `HashMap<String, oneshot::Sender<_>>` from
`communication.rs`, embedded as an association list from request id to an
opaque reply-slot token (at most one entry per key is maintained by the
insert/remove operations below, matching map semantics). -/
abbrev PendingTable := List (String × Nat)

/-- `HashMap::remove` on the pending table (drops the entry with the key if
present; a no-op when the key is absent). -/
def removePending (t : PendingTable) (id : String) : PendingTable :=
  t.filter (fun p => p.1 ≠ id)

/-- `HashMap::get`-style lookup for the slot token stored under an id. -/
def lookupPending (t : PendingTable) (id : String) : Option Nat :=
  (t.find? (fun p => p.1 == id)).map (fun p => p.2)

/-- `HashMap::insert` of a reply slot under an id. -/
def insertPending (t : PendingTable) (id : String) (slot : Nat) : PendingTable :=
  (id, slot) :: removePending t id

/-- Keys currently pending in the table. -/
def pendingIds (t : PendingTable) : List String := t.map (fun p => p.1)

/-- Modelled abstraction of `Uuid::new_v4().to_string()`
(communication.rs line 187): the random v4 generator is idealized as an
injective supply of opaque strings indexed by how many ids the channel
instance has generated so far. -/
def genId (n : Nat) : String := String.mk (List.replicate (n + 1) 'u')

/-- Outcome of `tokio::time::timeout(timeout_duration, response_receiver)`
awaited by `send_request` (communication.rs line 204), abstracted as an
oracle value: the reply slot fired with a response within the timeout, the
reply slot's sender side was dropped (channel closed), or the timeout
elapsed first. -/
inductive AwaitOutcome where
  | delivered (r : JsonRpcResponse)
  | channelClosed
  | timedOut
deriving Repr

/-- Embedding of the completion phase of `IPCChannel::send_request`
(communication.rs lines 204-218): on a delivered response, return it (the
reader already removed the entry); on a closed reply channel, remove the
entry and return a `CommunicationError`; on timeout, remove the entry and
return a `TimeoutError`. -/
def sendRequestAwait (t : PendingTable) (id : String) (a : AwaitOutcome) :
    PendingTable × Except AIEngineError JsonRpcResponse :=
  match a with
  | .delivered r => (t, .ok r)
  | .channelClosed =>
    (removePending t id, .error (.CommunicationError "Response channel closed"))
  | .timedOut =>
    (removePending t id, .error (.TimeoutError "Request timed out"))

/-- Embedding of the reader task's handling of one decoded response
(communication.rs lines 109-117): look the id up in the pending table; if
found, remove the entry and deliver through its slot (returned as
`some slot`); if not found, log an orphan-response warning and deliver
nothing (`none`), leaving the table unchanged. -/
def readerHandleResponse (t : PendingTable) (id : String) :
    PendingTable × Option Nat :=
  match lookupPending t id with
  | some slot => (removePending t id, some slot)
  | none => (t, none)

/-- State of one `IPCChannel` instance relevant to request bookkeeping:
the id-supply index, the pending table, and whether the writer task's queue
receiver is alive (`message_sender.send` fails once it is dropped; a
channel built by `IPCChannel::new()` and never started has a dead
receiver). -/
structure ChannelState where
  nextId : Nat
  pending : PendingTable
  writerAlive : Bool

/-- Embedding of the registration phase of `IPCChannel::send_request`
(communication.rs lines 187-201): generate a fresh id, register a reply
slot under it, then enqueue the message; if the enqueue fails the error is
returned (the entry stays registered — the source does not clean it up on
this path). -/
def sendRequestRegister (s : ChannelState) :
    ChannelState × String × Except AIEngineError Unit :=
  let id := genId s.nextId
  let s' : ChannelState :=
    { nextId := s.nextId + 1, pending := insertPending s.pending id s.nextId,
      writerAlive := s.writerAlive }
  if s.writerAlive then
    (s', id, .ok ())
  else
    (s', id, .error (.CommunicationError "Failed to send message: channel closed"))

/-- Full embedding of `IPCChannel::send_request`: registration followed,
when the enqueue succeeded, by the awaited outcome. -/
def IPCChannel.send_request (s : ChannelState) (a : AwaitOutcome) :
    ChannelState × Except AIEngineError JsonRpcResponse :=
  let (s', id, enq) := sendRequestRegister s
  match enq with
  | .error e => (s', .error e)
  | .ok () =>
    let (t', res) := sendRequestAwait s'.pending id a
    ({ s' with pending := t' }, res)

/-- Embedding of `IPCChannel::send_notification` (communication.rs lines
222-233): enqueue the notification; fails only when the writer queue's
receiver is gone. -/
def IPCChannel.send_notification (s : ChannelState) :
    Except AIEngineError Unit :=
  if s.writerAlive then .ok ()
  else .error (.CommunicationError "Failed to send notification: channel closed")

/-- Embedding of `AIEngineManager::send_request` (manager.rs lines
144-160): delegate to the channel with the configured health-check timeout,
then map a response-level `error` field to `JsonRpcError` and otherwise
return `result` (or JSON null).  The function receives the current engine
status exactly as the Rust method has access to `self.status`, and — like
the source — never reads it. -/
def AIEngineManager.send_request (_status : AIEngineStatus) (s : ChannelState)
    (a : AwaitOutcome) : ChannelState × Except AIEngineError Json :=
  let (s', res) := IPCChannel.send_request s a
  match res with
  | .error e => (s', .error e)
  | .ok r =>
    match r.error with
    | some e => (s', .error (.JsonRpcError e.message))
    | none => (s', .ok (r.result.getD .null))

/-- Embedding of `AIEngineManager::send_notification` (manager.rs lines
163-169): a thin pass-through that, like the source, never reads the
status. -/
def AIEngineManager.send_notification (_status : AIEngineStatus)
    (s : ChannelState) : Except AIEngineError Unit :=
  IPCChannel.send_notification s

/-- Externally caused failures during `IPCChannel::terminate`, abstracted
as an oracle: whether the graceful-shutdown notification enqueue, the
force-kill, and the exit-wait fail. -/
structure TerminateOracle where
  notifyFails : Bool
  killFails : Bool
  waitFails : Bool
deriving DecidableEq, Repr

/-- Process-handle state of an `IPCChannel` as seen by `terminate`:
whether a child process is attached and whether a stdin writer handle is
held. -/
structure ProcessState where
  processAttached : Bool
  stdinWriterHeld : Bool
deriving DecidableEq, Repr

/-- Embedding of `IPCChannel::terminate` (communication.rs lines 251-275):
when a process is attached, take it, best-effort send a `shutdown`
notification, sleep a 2-second grace period, force-kill (error logged) and
await exit (error logged); in every case clear the stdin writer and return
`Ok(())` — no failure of the oracle is propagated. -/
def IPCChannel.terminate (st : ProcessState) (o : TerminateOracle) :
    Except AIEngineError Unit × ProcessState :=
  if st.processAttached then
    let _notifyResult : Except AIEngineError Unit :=
      if o.notifyFails then .error (.CommunicationError "Failed to send notification: channel closed")
      else .ok ()
    let _killLogged : Bool := o.killFails
    let _waitLogged : Bool := o.waitFails
    (.ok (), { processAttached := false, stdinWriterHeld := false })
  else
    (.ok (), { processAttached := false, stdinWriterHeld := false })

/-- Embedding of `HealthMonitor::perform_health_check` (health.rs lines
128-164) for one tick: the oracle inputs are `is_process_running()`, the
result of the `ping` request (absent when the process is not running — no
request is attempted then), and the measured elapsed milliseconds.  Also
returns whether a ping request was sent. -/
def performHealthCheck (processRunning : Bool)
    (ping : Except AIEngineError JsonRpcResponse) (elapsedMs : Nat) :
    HealthCheckResult × Bool :=
  if !processRunning then
    (HealthCheckResult.mkUnhealthy "AI Core process is not running", false)
  else
    match ping with
    | .ok r =>
      match r.error with
      | some e => (HealthCheckResult.mkUnhealthy ("Ping failed: " ++ e.message), true)
      | none => (HealthCheckResult.mkHealthy elapsedMs, true)
    | .error (.TimeoutError _) =>
      (HealthCheckResult.mkUnhealthy "Health check timed out", true)
    | .error e =>
      (HealthCheckResult.mkUnhealthy ("Health check error: " ++ e.display), true)

/-- Embedding of `AIEngineConfig::default()` (config.rs lines 49-66); the
working directory (`current_dir()`) is environment-dependent and embedded
as `"."`, its fallback value. -/
def cfgDefault : AIEngineConfig :=
  { python_executable := "python"
    ai_core_script := "ai_core/main.py"
    working_directory := "."
    environment_variables := []
    startup_timeout := .fromSecs 30
    health_check_interval := .fromSecs 10
    health_check_timeout := .fromSecs 5
    max_restart_attempts := 3
    restart_delay_base := .fromSecs 2
    max_restart_delay := .fromSecs 60
    debug_logging := true
    log_file_path := none }

/-- Substring containment as a proposition: `pat` occurs contiguously in
`s` (used to state the spec's "reason contains ..." conditions). -/
def strContains (s pat : String) : Prop := ∃ a b, s = a ++ pat ++ b

/-- Message payload carried by an `AIEngineError`. -/
def AIEngineError.payload : AIEngineError → String
  | .ProcessSpawnError m => m
  | .ProcessCrashed m => m
  | .CommunicationError m => m
  | .TimeoutError m => m
  | .ConfigurationError m => m
  | .JsonRpcError m => m
  | .HealthCheckFailedError m => m
  | .StartupFailed m => m

/-- Claim C3's notion of an "engine not ready" rejection: an error result
whose message mentions not-readiness. -/
def isNotReadyError (r : Except AIEngineError Json) : Prop :=
  ∃ e, r = .error e ∧ strContains e.payload "not ready"

/-- Claim C7's four-outcome description of one health-check tick, written
from the claim's words: the result of the tick is exactly one of
(i) process not running — unhealthy with the "process not running" reason
and no request sent; (ii) ping timed out — unhealthy with the "timed out"
reason; (iii) response with an error field — unhealthy carrying that error
detail; (iv) any other response — healthy with the measured round-trip
time.  The claim's quoted reasons are glosses of the source's strings, so
the reasons are stated with the source's exact strings
("AI Core process is not running", "Health check timed out",
"Ping failed: " followed by the detail). -/
def healthClaimFourOutcomes (running : Bool)
    (ping : Except AIEngineError JsonRpcResponse) (elapsedMs : Nat)
    (res : HealthCheckResult × Bool) : Prop :=
  (running = false ∧ res.2 = false
    ∧ res.1 = .mkUnhealthy "AI Core process is not running")
  ∨ (running = true ∧ res.2 = true ∧ (∃ s, ping = .error (.TimeoutError s))
    ∧ res.1 = .mkUnhealthy "Health check timed out")
  ∨ (running = true ∧ res.2 = true
    ∧ ∃ r e, ping = .ok r ∧ r.error = some e
      ∧ res.1 = .mkUnhealthy ("Ping failed: " ++ e.message))
  ∨ (running = true ∧ res.2 = true
    ∧ ∃ r, ping = .ok r ∧ r.error = none ∧ res.1 = .mkHealthy elapsedMs)

/-- Amended form of claim C7: the code has a fifth outcome — a `ping`
failure other than a timeout (e.g. a `CommunicationError`) yields an
unhealthy result whose reason carries the error's rendering prefixed with
"Health check error: ". -/
def healthClaimFiveOutcomes (running : Bool)
    (ping : Except AIEngineError JsonRpcResponse) (elapsedMs : Nat)
    (res : HealthCheckResult × Bool) : Prop :=
  healthClaimFourOutcomes running ping elapsedMs res
  ∨ (running = true ∧ res.2 = true
    ∧ ∃ e, ping = .error e ∧ (∀ s, e ≠ .TimeoutError s)
      ∧ res.1 = .mkUnhealthy ("Health check error: " ++ e.display))

/-- Shape condition under which a JSON value parses as a `JsonRpcResponse`
(claim C9: "parses with a non-null `id` and no `method`", plus the struct's
field requirements: a string `jsonrpc` field and a well-formed `error`
field when present). -/
def responseShape (j : Json) : Bool :=
  match j with
  | .obj fields =>
    (lookupField fields "method").isNone
      && (match lookupField fields "jsonrpc" with
          | some (.str _) => true
          | _ => false)
      && (match lookupField fields "id" with
          | some .null => false
          | some _ => true
          | none => false)
      && (match lookupField fields "error" with
          | none => true
          | some e => (decodeErrorObj e).isSome)
  | _ => false

/-- Operations that touch the pending-request table during a channel
instance's lifetime: a `send_request` registration, a requester-side
removal (timeout or closed reply channel), and a reader-side removal on a
matching response. -/
inductive ChannelOp where
  | register
  | cleanup (id : String)
  | deliver (id : String)

/-- Effect of one operation on the channel state. -/
def channelStep (s : ChannelState) : ChannelOp → ChannelState
  | .register => (sendRequestRegister s).1
  | .cleanup id => { s with pending := removePending s.pending id }
  | .deliver id => { s with pending := (readerHandleResponse s.pending id).1 }

/-- Run of a sequence of table operations from a given channel state. -/
def channelRun (s : ChannelState) : List ChannelOp → ChannelState
  | [] => s
  | op :: rest => channelRun (channelStep s op) rest

/-- Well-formedness of a channel state: pending ids are pairwise distinct
and all drawn from the already-consumed prefix of the id supply. -/
def TableWellFormed (s : ChannelState) : Prop :=
  (pendingIds s.pending).Nodup
    ∧ ∀ id ∈ pendingIds s.pending, ∃ m, m < s.nextId ∧ id = genId m

/-- Status announced by a restart-loop event, if any. -/
def RestartEvent.statusOf : RestartEvent → Option AIEngineStatus
  | .statusUpdate u => some u.status
  | _ => none

/-- Per-entry environment-variable condition of `validate`, as one Bool. -/
def envVarOk (kv : String × String) : Bool :=
  !(kv.1.contains (Char.ofNat 0) || kv.2.contains (Char.ofNat 0))
    && !(kv.1.utf8ByteSize > 1000 || kv.2.utf8ByteSize > 10000)

/-- Claim C8's enumeration of what validation accepts, written from the
claim's words (the spec-side definition of the refinement comparison):
no traversal sequence `..` in any of the three paths and no `~` in the
executable; referenced paths exist with `python`/`python3` allowed as
non-existing executables; startup timeout neither zero nor over 300
seconds; non-zero health-check interval and timeout; at most 10 restart
attempts; environment variables free of null bytes with keys of at most
1000 and values of at most 10000 characters. -/
def validationAcceptedClaim (c : AIEngineConfig) (pathExists : String → Bool) : Bool :=
  !containsSubstr c.python_executable ".." && !containsSubstr c.python_executable "~"
    && !containsSubstr c.ai_core_script ".." && !containsSubstr c.working_directory ".."
    && (pathExists c.python_executable || c.python_executable == "python"
        || c.python_executable == "python3")
    && pathExists c.ai_core_script && pathExists c.working_directory
    && c.startup_timeout.asSecs != 0 && c.startup_timeout.asSecs ≤ 300
    && c.health_check_interval.asSecs != 0 && c.health_check_timeout.asSecs != 0
    && c.max_restart_attempts ≤ 10
    && c.environment_variables.all envVarOk

theorem checkEnvVars_ok_iff (l : List (String × String)) :
    checkEnvVars l = .ok () ↔ l.all envVarOk = true := by
  induction l with
  | nil => simp [checkEnvVars]
  | cons kv rest ih =>
    obtain ⟨k, v⟩ := kv
    simp only [checkEnvVars, List.all_cons, envVarOk]
    split
    · rename_i h
      simp only [h]
      simp
    · rename_i h
      split
      · rename_i h2
        simp only [h2]
        simp [h]
      · rename_i h2
        simp only [ih]
        simp [h, h2]

set_option maxHeartbeats 1000000 in
theorem validate_ok_iff (c : AIEngineConfig) (pathExists : String → Bool) :
    c.validate pathExists = .ok () ↔ validationAcceptedClaim c pathExists = true := by
  unfold AIEngineConfig.validate validationAcceptedClaim
  repeat' split
  all_goals simp_all [checkEnvVars_ok_iff, Nat.not_lt, Nat.lt_iff_add_one_le]
  all_goals intros
  all_goals first
  | (exfalso; simp_all)
  | tauto
  | (rcases Bool.eq_false_or_eq_true (pathExists c.python_executable) with hb | hb <;>
      by_cases hp : c.python_executable = "python" <;> tauto)

theorem start_of_validate_error (c : AIEngineConfig) (pe : String → Bool)
    (o : SpawnOutcome) (e : String) (h : c.validate pe = .error e) :
    AIEngineManager.start c pe o =
      { result := .error (.ConfigurationError e), spawned := false, events := [] } := by
  unfold AIEngineManager.start
  rw [h]

theorem start_of_validate_ok_no_config_error (c : AIEngineConfig)
    (pe : String → Bool) (o : SpawnOutcome) (h : c.validate pe = .ok ()) :
    ∀ e, (AIEngineManager.start c pe o).result ≠ .error (.ConfigurationError e) := by
  intro e
  unfold AIEngineManager.start
  rw [h]
  unfold spawnAIProcess
  cases o <;> split_ifs <;> simp

/-- C8: `start()` returns a `ConfigurationError` (without attempting any
spawn) exactly when configuration validation fails, and validation accepts
exactly the conditions enumerated by the claim
(`validationAcceptedClaim`, which spells out the claim's list of rejected
configurations). -/
theorem start_config_error_iff_validation_fails (c : AIEngineConfig)
    (pe : String → Bool) (o : SpawnOutcome) :
    ((∃ e, (AIEngineManager.start c pe o).result = .error (.ConfigurationError e))
      ↔ validationAcceptedClaim c pe = false)
    ∧ (validationAcceptedClaim c pe = false →
        (AIEngineManager.start c pe o).spawned = false) := by
  cases hv : c.validate pe with
  | error e =>
    have hfalse : validationAcceptedClaim c pe = false := by
      by_contra hb
      rw [Bool.not_eq_false, ← validate_ok_iff] at hb
      rw [hv] at hb
      exact Except.noConfusion hb
    rw [start_of_validate_error c pe o e hv]
    exact ⟨⟨fun _ => hfalse, fun _ => ⟨e, rfl⟩⟩, fun _ => rfl⟩
  | ok u =>
    cases u
    have htrue : validationAcceptedClaim c pe = true :=
      (validate_ok_iff c pe).mp hv
    constructor
    · constructor
      · rintro ⟨e, he⟩
        exact absurd he (start_of_validate_ok_no_config_error c pe o hv e)
      · intro hfalse
        rw [htrue] at hfalse
        exact Bool.noConfusion hfalse
    · intro hfalse
      rw [htrue] at hfalse
      exact Bool.noConfusion hfalse

/-- Witness for C8 at a concrete rejected configuration (default config
with `max_restart_attempts = 20`, which validation rejects). -/
theorem start_config_error_iff_validation_fails_witness :
    (∃ e, (AIEngineManager.start { cfgDefault with max_restart_attempts := 20 }
        (fun _ => true) .success).result = .error (.ConfigurationError e))
    ∧ (AIEngineManager.start { cfgDefault with max_restart_attempts := 20 }
        (fun _ => true) .success).spawned = false :=
  ⟨(start_config_error_iff_validation_fails _ _ _).1.mpr (by decide),
   (start_config_error_iff_validation_fails _ _ _).2 (by decide)⟩

theorem restartTick_shutdown (c : AIEngineConfig) (a : Nat) (o : RestartObs)
    (h : o.shutdownRequested = true) : restartTick c a o = .halt [] := by
  unfold restartTick
  rw [if_pos h]

theorem restartTick_running (c : AIEngineConfig) (a : Nat) (o : RestartObs)
    (h1 : o.shutdownRequested = false) (h2 : o.processRunning = true) :
    restartTick c a o = .cont a [] := by
  unfold restartTick
  rw [if_neg (by simp [h1]), if_pos h2]

theorem restartTick_crash_within (c : AIEngineConfig) (a : Nat) (o : RestartObs)
    (h1 : o.shutdownRequested = false) (h2 : o.processRunning = false)
    (h3 : a + 1 ≤ c.max_restart_attempts) :
    restartTick c a o = .cont (a + 1)
      [.statusUpdate ⟨.Restarting,
        some ("Restarting after crash (" ++ toString (a + 1) ++ "/"
          ++ toString c.max_restart_attempts ++ ")")⟩,
       .backoffSleep (backoffDelay c (a + 1))] := by
  unfold restartTick
  rw [if_neg (by simp [h1]), if_neg (by simp [h2])]
  simp only [if_pos h3]

theorem restartTick_crash_exceeded (c : AIEngineConfig) (a : Nat) (o : RestartObs)
    (h1 : o.shutdownRequested = false) (h2 : o.processRunning = false)
    (h3 : ¬a + 1 ≤ c.max_restart_attempts) :
    restartTick c a o =
      .halt [.statusUpdate ⟨.Error "Max restart attempts exceeded", none⟩] := by
  unfold restartTick
  rw [if_neg (by simp [h1]), if_neg (by simp [h2])]
  simp only [if_neg h3]

theorem restartRun_cons_halt (c : AIEngineConfig) (a : Nat) (o : RestartObs)
    (rest : List RestartObs) (evs : List RestartEvent)
    (h : restartTick c a o = .halt evs) :
    restartRun c a (o :: rest) = (a, true, evs) := by
  unfold restartRun
  rw [h]

theorem restartRun_cons_cont (c : AIEngineConfig) (a a' : Nat) (o : RestartObs)
    (rest : List RestartObs) (evs : List RestartEvent)
    (h : restartTick c a o = .cont a' evs) :
    restartRun c a (o :: rest) =
      ((restartRun c a' rest).1, (restartRun c a' rest).2.1,
        evs ++ (restartRun c a' rest).2.2) := by
  have hstep : restartRun c a (o :: rest) =
      (match restartTick c a o with
       | .halt evs => (a, true, evs)
       | .cont attempts' evs =>
         match restartRun c attempts' rest with
         | (a2, stopped, evs') => (a2, stopped, evs ++ evs')) := rfl
  rw [hstep, h]

theorem countRestarting_nil : countRestarting [] = 0 := rfl

theorem countRestarting_append (a b : List RestartEvent) :
    countRestarting (a ++ b) = countRestarting a + countRestarting b :=
  List.countP_append _ _ _

theorem restartRun_countRestarting_le (c : AIEngineConfig)
    (obs : List RestartObs) :
    ∀ a, countRestarting (restartRun c a obs).2.2 ≤ c.max_restart_attempts - a := by
  induction obs with
  | nil => intro a; simp [restartRun, countRestarting]
  | cons o rest ih =>
    intro a
    by_cases h1 : o.shutdownRequested = true
    · rw [restartRun_cons_halt c a o rest [] (restartTick_shutdown c a o h1)]
      simp [countRestarting]
    · rw [Bool.not_eq_true] at h1
      by_cases h2 : o.processRunning = true
      · rw [restartRun_cons_cont c a a o rest [] (restartTick_running c a o h1 h2)]
        simpa using ih a
      · rw [Bool.not_eq_true] at h2
        by_cases h3 : a + 1 ≤ c.max_restart_attempts
        · rw [restartRun_cons_cont c a (a + 1) o rest _
            (restartTick_crash_within c a o h1 h2 h3)]
          have := ih (a + 1)
          simp only [countRestarting_append]
          have hone : countRestarting
              [RestartEvent.statusUpdate ⟨.Restarting,
                some ("Restarting after crash (" ++ toString (a + 1) ++ "/"
                  ++ toString c.max_restart_attempts ++ ")")⟩,
               RestartEvent.backoffSleep (backoffDelay c (a + 1))] = 1 := rfl
          rw [hone]
          omega
        · rw [restartRun_cons_halt c a o rest _
            (restartTick_crash_exceeded c a o h1 h2 h3)]
          simp [countRestarting, RestartEvent.isRestarting]

/-- C2: in every run of the restart-supervision loop after a successful
`start()` (which resets the counter to zero and implies the validated bound
`max_restart_attempts ≤ 10`, keeping the `Nat` embedding of the `u32`
counter exact), `Restarting` is announced at most `max_restart_attempts`
times, and a crash detected once the counter has already reached
`max_restart_attempts` makes the loop announce the terminal
`Error "Max restart attempts exceeded"` and break — never another
`Restarting`. -/
theorem restart_loop_never_exceeds_max (c : AIEngineConfig)
    (_hvalid : c.max_restart_attempts ≤ 10) :
    (∀ obs : List RestartObs,
      countRestarting (restartRun c 0 obs).2.2 ≤ c.max_restart_attempts)
    ∧ (∀ a o, c.max_restart_attempts ≤ a → o.shutdownRequested = false →
        o.processRunning = false →
        restartTick c a o =
          .halt [.statusUpdate ⟨.Error "Max restart attempts exceeded", none⟩]) := by
  constructor
  · intro obs
    simpa using restartRun_countRestarting_le c obs 0
  · intro a o ha h1 h2
    exact restartTick_crash_exceeded c a o h1 h2 (by omega)

/-- Witness for C2: the default configuration (cap 3), a run with five
consecutive crash observations, and the terminal tick at counter 3. -/
theorem restart_loop_never_exceeds_max_witness :
    countRestarting (restartRun cfgDefault 0
        [⟨false, false⟩, ⟨false, false⟩, ⟨false, false⟩, ⟨false, false⟩,
          ⟨false, false⟩]).2.2 ≤ 3
    ∧ restartTick cfgDefault 3 ⟨false, false⟩ =
        .halt [.statusUpdate ⟨.Error "Max restart attempts exceeded", none⟩] :=
  ⟨(restart_loop_never_exceeds_max cfgDefault (by decide)).1 _,
   (restart_loop_never_exceeds_max cfgDefault (by decide)).2 3 _ (by decide) rfl rfl⟩

theorem backoffDelay_eq (c : AIEngineConfig) (k : Nat)
    (hof : c.restart_delay_base.asSecs * 2 ^ (k - 1) < 2 ^ 64) :
    backoffDelay c k =
      min (c.restart_delay_base.asSecs * 2 ^ (k - 1)) c.max_restart_delay.asSecs := by
  unfold backoffDelay
  rcases Nat.eq_zero_or_pos c.restart_delay_base.asSecs with h0 | hpos
  · simp [h0]
  · have hp : 2 ^ (k - 1) < 2 ^ 64 :=
      lt_of_le_of_lt (Nat.le_mul_of_pos_left _ hpos) hof
    rw [Nat.mod_eq_of_lt hp, Nat.mod_eq_of_lt hof]

/-- C6: for every attempt number `k` with `1 ≤ k ≤ max_restart_attempts`,
the tick that handles the `k`-th crash (counter at `k - 1`, no shutdown,
process dead) announces `Restarting` for attempt `k` and sleeps exactly
`min(restart_delay_base * 2 ^ (k-1), max_restart_delay)` seconds (under the
no-overflow side condition of the `u64` product, which makes the `% 2 ^ 64`
of the embedding drop out). -/
theorem restart_backoff_delay_formula (c : AIEngineConfig) (k : Nat)
    (hk : 1 ≤ k) (hmax : k ≤ c.max_restart_attempts)
    (hof : c.restart_delay_base.asSecs * 2 ^ (k - 1) < 2 ^ 64) :
    restartTick c (k - 1) ⟨false, false⟩ =
      .cont k [.statusUpdate ⟨.Restarting,
          some ("Restarting after crash (" ++ toString k ++ "/"
            ++ toString c.max_restart_attempts ++ ")")⟩,
        .backoffSleep (min (c.restart_delay_base.asSecs * 2 ^ (k - 1))
          c.max_restart_delay.asSecs)] := by
  have hk1 : k - 1 + 1 = k := Nat.succ_pred_eq_of_pos hk
  have := restartTick_crash_within c (k - 1) ⟨false, false⟩ rfl rfl
    (by rw [hk1]; exact hmax)
  rw [hk1] at this
  rw [this, backoffDelay_eq c k hof]

/-- Witness for C6 at the default configuration (base 2s, cap 60s, cap on
attempts 3) and attempt number `k = 2`. -/
theorem restart_backoff_delay_formula_witness :
    restartTick cfgDefault 1 ⟨false, false⟩ =
      .cont 2 [.statusUpdate ⟨.Restarting,
          some ("Restarting after crash (" ++ toString 2 ++ "/"
            ++ toString cfgDefault.max_restart_attempts ++ ")")⟩,
        .backoffSleep (min (cfgDefault.restart_delay_base.asSecs * 2 ^ (2 - 1))
          cfgDefault.max_restart_delay.asSecs)] :=
  restart_backoff_delay_formula cfgDefault 2 (by decide) (by decide)
    (by norm_num [cfgDefault, Duration.asSecs, Duration.fromSecs])

/-- C1 (code bug): the restart-supervision loop's crash handling never
performs a respawn.  At the first detected crash under the default
configuration (counter 0, shutdown flag clear, `max_restart_attempts = 3`)
the embedded loop body announces `Restarting` for attempt 1 and sleeps the
2-second backoff — and that is all: no `respawn` action and no `Ready`
status is ever emitted by a tick, because the respawn site in
`start_restart_monitoring` is the unimplemented
`TODO: Implement restart logic here` (manager.rs lines 351-352), while the
claim (and the spec) require a fresh spawn sequence followed by a new
`Ready`. -/
theorem restart_tick_first_crash_no_respawn :
    restartTick cfgDefault 0 ⟨false, false⟩ =
      .cont 1 [.statusUpdate ⟨.Restarting, some "Restarting after crash (1/3)"⟩,
        .backoffSleep 2]
    ∧ ∀ e ∈ [RestartEvent.statusUpdate
          ⟨.Restarting, some "Restarting after crash (1/3)"⟩,
        RestartEvent.backoffSleep 2],
        e ≠ .respawn ∧ e.statusOf ≠ some .Ready := by
  constructor
  · decide
  · decide

/-- Counterexample to C3 as stated: with the engine status `Stopped` (not
`Ready`) and a started channel whose reply arrives, `send_request` returns
the forwarded `Ok` result of the channel — it is not rejected with an
"engine not ready" error, because neither `AIEngineManager::send_request`
nor `send_notification` consults the status at all. -/
theorem send_request_not_ready_counterexample :
    AIEngineStatus.Stopped ≠ AIEngineStatus.Ready
    ∧ (AIEngineManager.send_request .Stopped ⟨0, [], true⟩
        (.delivered ⟨"2.0", some (.str "ok"), none, .str "id-1"⟩)).2
      = .ok (.str "ok")
    ∧ ¬isNotReadyError (AIEngineManager.send_request .Stopped ⟨0, [], true⟩
        (.delivered ⟨"2.0", some (.str "ok"), none, .str "id-1"⟩)).2 := by
  refine ⟨by decide, rfl, ?_⟩
  rintro ⟨e, he, -⟩
  have h2 : (AIEngineManager.send_request .Stopped ⟨0, [], true⟩
      (.delivered ⟨"2.0", some (.str "ok"), none, .str "id-1"⟩)).2
      = Except.ok (Json.str "ok") := rfl
  rw [h2] at he
  exact Except.noConfusion he

/-- C3 amended: `send_request`/`send_notification` made while the engine is
not `Ready` are not rejected with an "engine not ready" error; the source
never reads the status, so the result is identical for every status value,
and the only fast failure is the channel's own `CommunicationError` when
the writer queue's receiver is gone (e.g. a channel that was never
started). -/
theorem send_request_ignores_status (st st' : AIEngineStatus)
    (s : ChannelState) (a : AwaitOutcome) :
    AIEngineManager.send_request st s a = AIEngineManager.send_request st' s a
    ∧ AIEngineManager.send_notification st s = AIEngineManager.send_notification st' s
    ∧ (s.writerAlive = false →
        (AIEngineManager.send_request st s a).2
          = .error (.CommunicationError "Failed to send message: channel closed")
        ∧ AIEngineManager.send_notification st s
          = .error (.CommunicationError "Failed to send notification: channel closed")) := by
  refine ⟨rfl, rfl, fun h => ⟨?_, ?_⟩⟩
  · simp [AIEngineManager.send_request, IPCChannel.send_request,
      sendRequestRegister, h]
  · simp [AIEngineManager.send_notification, IPCChannel.send_notification, h]

/-- Witness for C3's amended statement at concrete inputs (status
`Stopped` vs `Ready`, a dead writer queue, a timed-out await). -/
theorem send_request_ignores_status_witness :
    AIEngineManager.send_request .Stopped ⟨0, [], false⟩ .timedOut
      = AIEngineManager.send_request .Ready ⟨0, [], false⟩ .timedOut
    ∧ (AIEngineManager.send_request .Stopped ⟨0, [], false⟩ .timedOut).2
      = .error (.CommunicationError "Failed to send message: channel closed") :=
  ⟨(send_request_ignores_status .Stopped .Ready ⟨0, [], false⟩ .timedOut).1,
   ((send_request_ignores_status .Stopped .Ready ⟨0, [], false⟩ .timedOut).2.2 rfl).1⟩

/-- C10: `terminate()` always returns `Ok(())` — shutdown-notification,
kill and wait failures are logged, never propagated — and it
unconditionally clears the stdin writer handle, including when no child
process is attached. -/
theorem terminate_always_ok_clears_writer (st : ProcessState)
    (o : TerminateOracle) :
    (IPCChannel.terminate st o).1 = .ok ()
    ∧ ((IPCChannel.terminate st o).2).stdinWriterHeld = false := by
  unfold IPCChannel.terminate
  by_cases h : st.processAttached = true <;> simp [h]

theorem lookupPending_of_not_mem (l : PendingTable) (id : String)
    (hl : ∀ p ∈ l, p.1 ≠ id) : lookupPending l id = none := by
  induction l with
  | nil => rfl
  | cons p rest ih =>
    have hp : p.1 ≠ id := hl p (by simp)
    have hfind : ((p :: rest).find? (fun q => q.1 == id))
        = rest.find? (fun q => q.1 == id) := by
      rw [List.find?_cons_of_neg]
      simpa using hp
    simp only [lookupPending, hfind]
    exact ih (fun q hq => hl q (by simp [hq]))

theorem lookupPending_removePending (t : PendingTable) (id : String) :
    lookupPending (removePending t id) id = none := by
  apply lookupPending_of_not_mem
  intro p hp
  rw [removePending, List.mem_filter] at hp
  simpa using hp.2

theorem not_mem_pendingIds_removePending (t : PendingTable) (id : String) :
    id ∉ pendingIds (removePending t id) := by
  simp only [pendingIds, removePending, List.mem_map]
  rintro ⟨p, hp, hid⟩
  rw [List.mem_filter] at hp
  exact absurd hid (by simpa using hp.2)

theorem removePending_idem (t : PendingTable) (id : String) :
    removePending (removePending t id) id = removePending t id := by
  simp [removePending, List.filter_filter]

/-- C4: a timed-out `send_request` removes its own pending entry and
returns a `TimeoutError`, while a closed reply channel removes the entry
and returns a `CommunicationError`; the removal is idempotent, so in either
interleaving with the reader (reader removes-and-delivers first, or the
requester cleans up first and the late response finds no entry and is
discarded without delivering) the entry is removed exactly once and at most
one delivery happens. -/
theorem send_request_timeout_removal_race_safe (t : PendingTable)
    (id : String) (r : JsonRpcResponse) :
    sendRequestAwait t id .timedOut
      = (removePending t id, .error (.TimeoutError "Request timed out"))
    ∧ sendRequestAwait t id .channelClosed
      = (removePending t id, .error (.CommunicationError "Response channel closed"))
    ∧ id ∉ pendingIds (removePending t id)
    ∧ removePending (removePending t id) id = removePending t id
    ∧ readerHandleResponse (removePending t id) id = (removePending t id, none)
    ∧ (∀ slot, lookupPending t id = some slot →
        readerHandleResponse t id = (removePending t id, some slot)
        ∧ sendRequestAwait (removePending t id) id (.delivered r)
          = (removePending t id, .ok r)) := by
  refine ⟨rfl, rfl, not_mem_pendingIds_removePending t id,
    removePending_idem t id, ?_, ?_⟩
  · unfold readerHandleResponse
    rw [lookupPending_removePending]
  · intro slot h
    unfold readerHandleResponse
    rw [h]
    exact ⟨rfl, rfl⟩

/-- Witness for C4 at a concrete two-entry table: the entry for "a" is
removed on timeout and the late delivered response for "a" finds no
entry. -/
theorem send_request_timeout_removal_race_safe_witness :
    readerHandleResponse [("a", 0), ("b", 1)] "a" = ([("b", 1)], some 0)
    ∧ sendRequestAwait [("b", 1)] "a"
        (.delivered ⟨"2.0", none, none, .str "a"⟩) = ([("b", 1)], .ok ⟨"2.0", none, none, .str "a"⟩) :=
  (send_request_timeout_removal_race_safe [("a", 0), ("b", 1)] "a"
    ⟨"2.0", none, none, .str "a"⟩).2.2.2.2.2 0 rfl

theorem genId_injective : Function.Injective genId := by
  intro m n h
  have hl := congrArg (fun s => s.data.length) h
  simp only [genId, List.length_replicate] at hl
  omega

theorem pendingIds_removePending_sublist (t : PendingTable) (id : String) :
    (pendingIds (removePending t id)).Sublist (pendingIds t) :=
  (List.filter_sublist t).map _

theorem mem_pendingIds_removePending (t : PendingTable) (id k : String)
    (h : k ∈ pendingIds (removePending t id)) : k ∈ pendingIds t :=
  (pendingIds_removePending_sublist t id).mem h

theorem sendRequestRegister_fst (s : ChannelState) :
    (sendRequestRegister s).1
      = { nextId := s.nextId + 1,
          pending := insertPending s.pending (genId s.nextId) s.nextId,
          writerAlive := s.writerAlive } := by
  unfold sendRequestRegister
  by_cases h : s.writerAlive = true <;> simp [h]

theorem sendRequestRegister_id (s : ChannelState) :
    (sendRequestRegister s).2.1 = genId s.nextId := by
  unfold sendRequestRegister
  by_cases h : s.writerAlive = true <;> simp [h]

theorem channelStep_preserves_wf (s : ChannelState) (op : ChannelOp)
    (h : TableWellFormed s) : TableWellFormed (channelStep s op) := by
  obtain ⟨hnd, hbound⟩ := h
  cases op with
  | register =>
    simp only [channelStep, sendRequestRegister_fst]
    constructor
    · show (pendingIds (insertPending s.pending (genId s.nextId) s.nextId)).Nodup
      simp only [insertPending, pendingIds, List.map_cons]
      refine List.Nodup.cons ?_ ?_
      · exact fun hmem => not_mem_pendingIds_removePending s.pending (genId s.nextId) hmem
      · exact hnd.sublist (pendingIds_removePending_sublist s.pending (genId s.nextId))
    · intro id hid
      simp only [insertPending, pendingIds, List.map_cons, List.mem_cons] at hid
      rcases hid with hid | hid
      · exact ⟨s.nextId, by show s.nextId < s.nextId + 1; omega, hid⟩
      · obtain ⟨m, hm, he⟩ := hbound id
          (mem_pendingIds_removePending s.pending (genId s.nextId) id hid)
        exact ⟨m, by show m < s.nextId + 1; omega, he⟩
  | cleanup id =>
    refine ⟨hnd.sublist (pendingIds_removePending_sublist s.pending id), ?_⟩
    intro k hk
    exact hbound k (mem_pendingIds_removePending s.pending id k hk)
  | deliver id =>
    simp only [channelStep, readerHandleResponse]
    cases hl : lookupPending s.pending id with
    | some slot =>
      refine ⟨hnd.sublist (pendingIds_removePending_sublist s.pending id), ?_⟩
      intro k hk
      exact hbound k (mem_pendingIds_removePending s.pending id k hk)
    | none => exact ⟨hnd, hbound⟩

theorem channelRun_preserves_wf (ops : List ChannelOp) :
    ∀ s : ChannelState, TableWellFormed s → TableWellFormed (channelRun s ops) := by
  induction ops with
  | nil => exact fun s h => h
  | cons op rest ih =>
    intro s h
    exact ih (channelStep s op) (channelStep_preserves_wf s op h)

/-- C5: every `send_request` registers its reply slot under the freshly
generated id `genId nextId` (the embedding of `Uuid::new_v4().to_string()`
as an injective fresh supply), an id that is never already pending in a
well-formed state; consequently, after any sequence of registrations and
removals starting from a fresh channel instance, the pending-request table's
ids are pairwise distinct. -/
theorem pending_request_ids_unique :
    (∀ s : ChannelState, TableWellFormed s →
      (sendRequestRegister s).2.1 = genId s.nextId
      ∧ genId s.nextId ∉ pendingIds s.pending)
    ∧ ∀ (w : Bool) (ops : List ChannelOp),
        (pendingIds (channelRun ⟨0, [], w⟩ ops).pending).Nodup := by
  constructor
  · intro s hs
    refine ⟨sendRequestRegister_id s, fun hmem => ?_⟩
    obtain ⟨m, hm, he⟩ := hs.2 (genId s.nextId) hmem
    exact absurd (genId_injective he.symm) (by omega)
  · intro w ops
    exact (channelRun_preserves_wf ops ⟨0, [], w⟩
      ⟨List.nodup_nil, by intro id h; exact absurd h (List.not_mem_nil id)⟩).1

/-- Witness for C5 at a concrete well-formed state (one pending entry
registered from the supply) and a concrete operation sequence. -/
theorem pending_request_ids_unique_witness :
    ((sendRequestRegister ⟨2, [(genId 0, 0)], true⟩).2.1 = genId 2
      ∧ genId 2 ∉ pendingIds [(genId 0, 0)])
    ∧ (pendingIds (channelRun ⟨0, [], true⟩
        [.register, .register, .cleanup (genId 0)]).pending).Nodup :=
  ⟨pending_request_ids_unique.1 ⟨2, [(genId 0, 0)], true⟩
      ⟨by decide, by
        intro id h
        simp only [pendingIds, List.map_cons, List.map_nil, List.mem_singleton] at h
        exact ⟨0, by decide, h⟩⟩,
   pending_request_ids_unique.2 true [.register, .register, .cleanup (genId 0)]⟩

/-- Counterexample to C7 as stated: a `ping` that fails with a non-timeout
error (here the channel's `CommunicationError`, e.g. an unstarted or dead
writer queue) while the process is running produces a fifth outcome —
unhealthy with reason "Health check error: ..." — which is none of the
claim's four (not the not-running case, not a timeout, not a response with
an error field, and not healthy). -/
theorem health_check_four_outcomes_counterexample :
    ¬healthClaimFourOutcomes true (.error (.CommunicationError "stream closed")) 5
      (performHealthCheck true (.error (.CommunicationError "stream closed")) 5) := by
  intro h
  rcases h with h | h | h | h
  · exact Bool.noConfusion h.1
  · obtain ⟨s, hs⟩ := h.2.2.1
    simp at hs
  · obtain ⟨r, e, hr, -⟩ := h.2.2
    simp at hr
  · obtain ⟨r, hr, -⟩ := h.2.2
    simp at hr

/-- C7 amended: every health-check tick produces exactly one of five
outcomes — the claim's four (process not running without sending a request;
ping timeout; response with an error field; any other response is healthy
with the measured round-trip time) plus a fifth the claim omits: a ping
failure other than a timeout yields an unhealthy result carrying the
error's rendering behind "Health check error: ". -/
theorem health_check_five_outcomes (running : Bool)
    (ping : Except AIEngineError JsonRpcResponse) (elapsedMs : Nat) :
    healthClaimFiveOutcomes running ping elapsedMs
      (performHealthCheck running ping elapsedMs) := by
  cases running with
  | false =>
    left
    left
    exact ⟨rfl, rfl, rfl⟩
  | true =>
    cases ping with
    | ok r =>
      cases hr : r.error with
      | some e =>
        left
        right
        right
        left
        refine ⟨rfl, ?_, r, e, rfl, hr, ?_⟩
        · simp [performHealthCheck, hr]
        · simp [performHealthCheck, hr]
      | none =>
        left
        right
        right
        right
        exact ⟨rfl, by simp [performHealthCheck, hr], r, rfl, hr,
          by simp [performHealthCheck, hr]⟩
    | error e =>
      cases e with
      | TimeoutError s =>
        left
        right
        left
        exact ⟨rfl, rfl, ⟨s, rfl⟩, rfl⟩
      | ProcessSpawnError m =>
        right
        exact ⟨rfl, rfl, _, rfl, fun s h => AIEngineError.noConfusion h, rfl⟩
      | ProcessCrashed m =>
        right
        exact ⟨rfl, rfl, _, rfl, fun s h => AIEngineError.noConfusion h, rfl⟩
      | CommunicationError m =>
        right
        exact ⟨rfl, rfl, _, rfl, fun s h => AIEngineError.noConfusion h, rfl⟩
      | ConfigurationError m =>
        right
        exact ⟨rfl, rfl, _, rfl, fun s h => AIEngineError.noConfusion h, rfl⟩
      | JsonRpcError m =>
        right
        exact ⟨rfl, rfl, _, rfl, fun s h => AIEngineError.noConfusion h, rfl⟩
      | HealthCheckFailedError m =>
        right
        exact ⟨rfl, rfl, _, rfl, fun s h => AIEngineError.noConfusion h, rfl⟩
      | StartupFailed m =>
        right
        exact ⟨rfl, rfl, _, rfl, fun s h => AIEngineError.noConfusion h, rfl⟩

theorem decodeResponse_isSome_eq (j : Json) :
    (decodeResponse j).isSome = responseShape j := by
  cases j with
  | null => rfl
  | bool b => rfl
  | num n => rfl
  | str s => rfl
  | arr l => rfl
  | obj fields =>
    unfold decodeResponse responseShape
    cases hm : lookupField fields "method" with
    | some v => simp [hm]
    | none =>
      cases hj : lookupField fields "jsonrpc" with
      | none => simp [hm, hj]
      | some jv =>
        cases jv with
        | str v =>
          cases hid : lookupField fields "id" with
          | none => simp [hm, hj, hid]
          | some idv =>
            cases herr : lookupField fields "error" with
            | none => cases idv <;> simp [hm, hj, hid, herr]
            | some e =>
              cases hde : decodeErrorObj e with
              | none => cases idv <;> simp [hm, hj, hid, herr, hde]
              | some eo => cases idv <;> simp [hm, hj, hid, herr, hde]
        | null => simp [hm, hj]
        | bool b => simp [hm, hj]
        | num n => simp [hm, hj]
        | arr l => simp [hm, hj]
        | obj o => simp [hm, hj]

theorem decodeLine_resp_iff (j : Json) :
    (∃ r, decodeLine j = .resp r) ↔ (decodeResponse j).isSome = true := by
  unfold decodeLine
  cases hd : decodeResponse j with
  | some r => simp
  | none =>
    simp only [Option.isSome_none, Bool.false_eq_true, iff_false]
    cases hmm : decodeMessage j <;> simp

theorem decodeLine_encodeMessage (m : JsonRpcMessage) :
    decodeLine (encodeMessage m) = .msg m := by
  rcases m with ⟨v, meth, params, mid⟩
  cases params <;> cases mid <;>
    simp [encodeMessage, decodeLine, decodeResponse, decodeMessage, lookupField]

theorem decodeLine_encodeResponse (r : JsonRpcResponse) (h : r.id ≠ .null) :
    decodeLine (encodeResponse r) = .resp r := by
  rcases r with ⟨v, res, err, idv⟩
  cases res <;> cases err <;> cases idv <;>
    first
    | exact absurd rfl h
    | simp [encodeResponse, decodeLine, decodeResponse, decodeErrorObj, lookupField]

/-- C9: the wire codec round-trips — decoding the encoding of any
`JsonRpcMessage` recovers it (version, method, params, id), decoding the
encoding of any `JsonRpcResponse` with a non-null id recovers it (version,
result, error, id), and a line decodes as a response exactly when it parses
with a non-null `id` and no `method` (together with the response struct's
field requirements, `responseShape`); the text layer
(`serde_json::to_string` plus newline, and `from_str` of the trimmed line)
is treated as a bijection between JSON values and rendered lines, so the
round trip is stated on JSON values. -/
theorem wire_codec_roundtrip :
    (∀ m : JsonRpcMessage, decodeLine (encodeMessage m) = .msg m)
    ∧ (∀ r : JsonRpcResponse, r.id ≠ .null → decodeLine (encodeResponse r) = .resp r)
    ∧ ∀ j : Json, (∃ r, decodeLine j = .resp r) ↔ responseShape j = true :=
  ⟨decodeLine_encodeMessage, decodeLine_encodeResponse,
   fun j => by rw [← decodeResponse_isSome_eq]; exact decodeLine_resp_iff j⟩

/-- Witness for C9 at a concrete request, a concrete response with a
non-null id, and a concrete response-shaped line. -/
theorem wire_codec_roundtrip_witness :
    decodeLine (encodeMessage (JsonRpcMessage.new_request "ping" none
        (some (.str "id-7"))))
      = .msg (JsonRpcMessage.new_request "ping" none (some (.str "id-7")))
    ∧ decodeLine (encodeResponse ⟨"2.0", some (.str "pong"), none, .str "id-7"⟩)
      = .resp ⟨"2.0", some (.str "pong"), none, .str "id-7"⟩
    ∧ ((∃ r, decodeLine (.obj [("jsonrpc", .str "2.0"), ("id", .str "id-7")])
          = .resp r)
        ↔ responseShape (.obj [("jsonrpc", .str "2.0"), ("id", .str "id-7")])
          = true) :=
  ⟨wire_codec_roundtrip.1 _,
   wire_codec_roundtrip.2.1 _ (fun h => Json.noConfusion h),
   wire_codec_roundtrip.2.2 _⟩

end AIEngine
